import Mathlib

/-!
Verification of the mailin SMTP session state machine (src/mailin/src/fsm.rs)
and the mime-event streaming MIME parser (src/mime-event/src/parser.rs).

The Rust code is shallowly embedded: each polymorphic state object of fsm.rs
becomes an arm of a tagged variant `SmtpSt`, the `&mut StateMachine` receiver
becomes explicit state passing, and handler callbacks become fields of a
`Handler` record of pure functions.  Every handler invocation is additionally
recorded in a trace (`List HCall`) so that theorems can speak about which
callbacks ran and with which arguments.

Parts of the repository that the fsm depends on but that are not shipped under
src/ (response.rs, smtp.rs, parser.rs of the mailin crate; event.rs, header.rs,
header_buffer.rs, line_parser.rs of the mime-event crate) are modelled from the
specification, as marked on each such definition.
-/

namespace Mailin

/-- Modelled from the spec: `action` field of the Response model (§3); the
mailin crate's response.rs is not under src/.  One of Reply, Close, NoReply,
UpgradeTls. -/
inductive Action
  | Reply
  | Close
  | NoReply
  | UpgradeTls
deriving DecidableEq, Repr

/-- Modelled from the spec: the Response record (§3), response.rs is not under
src/.  `is_error` is true iff `code ≥ 400`.  The human-readable text is kept as
a single `message` string; the enhanced status triple and multi-line bodies are
not modelled because no claim mentions them. -/
structure Response where
  code : Nat
  action : Action
  is_error : Bool
  message : String := ""
deriving DecidableEq, Repr

/-- Modelled from the spec: `Response::dynamic` used by `ehlo_response`;
`is_error` is true iff the code is ≥ 400 (§3). -/
def Response.dynamic (code : Nat) (message : String) (lines : List String) : Response :=
  { code := code, action := Action.Reply, is_error := decide (400 ≤ code),
    message := String.intercalate " " (message :: lines) }

/-- Modelled from the spec response catalogue (§4.2): 250 generic success. -/
def OK : Response := { code := 250, action := Action.Reply, is_error := false, message := "OK" }

/-- Modelled from the spec response catalogue (§4.2): 221 session end.  Ends
the session, so its action is Close. -/
def GOODBYE : Response :=
  { code := 221, action := Action.Close, is_error := false, message := "goodbye" }

/-- Modelled from the spec response catalogue (§4.2): 235 authentication
succeeded. -/
def AUTH_OK : Response :=
  { code := 235, action := Action.Reply, is_error := false, message := "authentication successful" }

/-- Modelled from the spec response catalogue (§4.2): 354 begin data. -/
def START_DATA : Response :=
  { code := 354, action := Action.Reply, is_error := false, message := "start mail input" }

/-- Modelled from the spec response catalogue (§4.2): 334 base64 of
"Username:". -/
def USERNAME_AUTH_CHALLENGE : Response :=
  { code := 334, action := Action.Reply, is_error := false, message := "VXNlcm5hbWU6" }

/-- Modelled from the spec response catalogue (§4.2): 334 base64 of
"Password:". -/
def PASSWORD_AUTH_CHALLENGE : Response :=
  { code := 334, action := Action.Reply, is_error := false, message := "UGFzc3dvcmQ6" }

/-- Modelled from the spec response catalogue (§4.2): 334 empty SASL
challenge. -/
def EMPTY_AUTH_CHALLENGE : Response :=
  { code := 334, action := Action.Reply, is_error := false, message := " " }

/-- Modelled from the spec response catalogue (§4.2): 220 ready to start TLS,
drives the UpgradeTls action. -/
def START_TLS : Response :=
  { code := 220, action := Action.UpgradeTls, is_error := false, message := "ready to start TLS" }

/-- Modelled from the spec response catalogue (§4.2): 505 bad HELO when AUTH is
required. -/
def BAD_HELLO : Response :=
  { code := 505, action := Action.Reply, is_error := true, message := "bad HELO" }

/-- Modelled from the spec response catalogue (§4.2): 503 command out of
order. -/
def BAD_SEQUENCE_COMMANDS : Response :=
  { code := 503, action := Action.Reply, is_error := true, message := "bad sequence of commands" }

/-- Modelled from the spec response catalogue (§4.2): 554 data write error. -/
def TRANSACTION_FAILED : Response :=
  { code := 554, action := Action.Reply, is_error := true, message := "transaction failed" }

/-- Modelled from the spec response catalogue (§4.2) and §7 (fatal internal:
421, Close): connection-fatal internal error. -/
def INVALID_STATE : Response :=
  { code := 421, action := Action.Close, is_error := true, message := "invalid state" }

/-- Modelled from the spec response catalogue (§4.2): the action=NoReply
sentinel; emits nothing on the wire. -/
def EMPTY_RESPONSE : Response :=
  { code := 0, action := Action.NoReply, is_error := false, message := "" }

/-- Modelled from the spec (§4.3 Hello: Vrfy → 252 "cannot VRFY user, but will
accept message"); response.rs is not under src/. -/
def VERIFY_RESPONSE : Response :=
  { code := 252, action := Action.Reply, is_error := false,
    message := "cannot VRFY user, but will accept message" }

/-- Modelled from the spec (§3, §6.3): the SASL mechanisms PLAIN and LOGIN;
the mailin crate's lib.rs is not under src/. -/
inductive AuthMechanism
  | Plain
  | Login
deriving DecidableEq, Repr

/-- Modelled from the spec: the EHLO AUTH extension keywords of each
mechanism. -/
def AuthMechanism.extension : AuthMechanism → String
  | AuthMechanism.Plain => "PLAIN"
  | AuthMechanism.Login => "LOGIN"

/-- fsm.rs: `enum TlsState { Unavailable, Inactive, Active }`. -/
inductive TlsState
  | Unavailable
  | Inactive
  | Active
deriving DecidableEq, Repr

/-- fsm.rs: `enum AuthState { Unavailable, RequiresAuth, Authenticated }`. -/
inductive AuthState
  | Unavailable
  | RequiresAuth
  | Authenticated
deriving DecidableEq, Repr

/-- Modelled from the spec (§3 Command): the command variants produced by the
line parser; the mailin crate's smtp.rs is not under src/.  Per §4.3 the Auth
state base64-decodes the line whole, so `AuthResponse` carries the decoded
bytes. -/
inductive Cmd
  | Helo (domain : String)
  | Ehlo (domain : String)
  | Mail (reverse_path : String) (is8bit : Bool)
  | Rcpt (forward_path : String)
  | Data
  | DataEnd
  | Rset
  | Quit
  | Noop
  | Vrfy
  | StartTls
  | StartedTls
  | AuthPlain (authorization_id : String) (authentication_id : String) (password : String)
  | AuthPlainEmpty
  | AuthLogin (username : String)
  | AuthLoginEmpty
  | AuthResponse (response : List Nat)
deriving DecidableEq, Repr

/-- fsm.rs: the state objects Idle/Hello/HelloAuth/Auth/Mail/Rcpt/Data, each
carrying exactly the fields of the corresponding Rust struct, re-expressed as a
tagged variant. -/
inductive SmtpSt
  | Idle
  | Hello (domain : String)
  | HelloAuth (domain : String)
  | Auth (domain : String) (mechanism : AuthMechanism) (username : Option String)
  | Mail (domain : String) (reverse_path : String) (is8bit : Bool)
  | Rcpt (domain : String) (reverse_path : String) (is8bit : Bool) (forward_path : List String)
  | Data (domain : String) (has_error : Bool)
deriving DecidableEq, Repr

/-- fsm.rs: `enum SmtpState` (the phase identifiers returned by
`State::id`). -/
inductive SmtpState
  | Invalid
  | Idle
  | Hello
  | HelloAuth
  | Auth
  | Mail
  | Rcpt
  | Data
deriving DecidableEq, Repr

/-- fsm.rs: the `State::id` implementations of each state object. -/
def SmtpSt.id : SmtpSt → SmtpState
  | SmtpSt.Idle => SmtpState.Idle
  | SmtpSt.Hello _ => SmtpState.Hello
  | SmtpSt.HelloAuth _ => SmtpState.HelloAuth
  | SmtpSt.Auth _ _ _ => SmtpState.Auth
  | SmtpSt.Mail _ _ _ => SmtpState.Mail
  | SmtpSt.Rcpt _ _ _ _ => SmtpState.Rcpt
  | SmtpSt.Data _ _ => SmtpState.Data

/-- Modelled from the spec (§6.2 handler contract; the mailin crate's lib.rs is
not under src/): the callbacks the embedder implements, as a record of pure
functions.  `data` returns a Result as in fsm.rs (`handler.data(line)` is
matched on Ok/Err); `data_start` and `data_end` return a Response as used by
fsm.rs. -/
structure Handler where
  helo : Nat → String → Response
  auth_plain : String → String → String → Response
  auth_login : String → String → Response
  mail : Nat → String → String → Response
  rcpt : String → Response
  data_start : String → String → Bool → List String → Response
  data : List Nat → Except String Unit
  data_end : Response

/-- Trace entries recording each handler callback together with its
arguments. -/
inductive HCall
  | helo (ip : Nat) (domain : String)
  | auth_plain (authorization_id : String) (authentication_id : String) (password : String)
  | auth_login (username : String) (password : String)
  | mail (ip : Nat) (domain : String) (reverse_path : String)
  | rcpt (forward_path : String)
  | data_start (domain : String) (reverse_path : String) (is8bit : Bool)
      (forward_path : List String)
  | data (line : List Nat)
  | data_end
deriving DecidableEq, Repr

/-- fsm.rs: `struct StateMachine` (the peer IP is modelled as a plain
number). -/
structure StateMachine where
  ip : Nat
  auth_mechanisms : List AuthMechanism
  auth_state : AuthState
  tls : TlsState
  smtp : Option SmtpSt
  auth_plain : Bool
  auth_login : Bool
  insecure_allow_plaintext_auth : Bool
deriving DecidableEq, Repr

/-- fsm.rs: `StateMachine::new`. -/
def StateMachine.new (ip : Nat) (auth_mechanisms : List AuthMechanism)
    (allow_start_tls : Bool) (insecure_allow_plaintext_auth : Bool) : StateMachine :=
  { ip := ip
    auth_mechanisms := auth_mechanisms
    auth_state :=
      if auth_mechanisms.isEmpty then AuthState.Unavailable else AuthState.RequiresAuth
    tls := if allow_start_tls then TlsState.Inactive else TlsState.Unavailable
    smtp := some SmtpSt.Idle
    auth_plain := auth_mechanisms.contains AuthMechanism.Plain
    auth_login := auth_mechanisms.contains AuthMechanism.Login
    insecure_allow_plaintext_auth := insecure_allow_plaintext_auth }

/-- fsm.rs: `StateMachine::allow_auth`. -/
def StateMachine.allow_auth (fsm : StateMachine) : Bool :=
  fsm.insecure_allow_plaintext_auth || decide (fsm.tls = TlsState.Active)

/-- fsm.rs: `StateMachine::allow_auth_plain`. -/
def StateMachine.allow_auth_plain (fsm : StateMachine) : Bool :=
  fsm.auth_plain && fsm.allow_auth

/-- fsm.rs: `StateMachine::allow_auth_login`. -/
def StateMachine.allow_auth_login (fsm : StateMachine) : Bool :=
  fsm.auth_login && fsm.allow_auth

/-- fsm.rs: `StateMachine::ehlo_response`. -/
def StateMachine.ehlo_response (fsm : StateMachine) : Response :=
  let extensions := ["8BITMIME"]
  let extensions :=
    if fsm.tls = TlsState.Inactive then extensions ++ ["STARTTLS"] else extensions
  let extensions :=
    if fsm.allow_auth && !fsm.auth_mechanisms.isEmpty then
      extensions ++
        [fsm.auth_mechanisms.foldl (fun acc a => acc ++ " " ++ a.extension) "AUTH"]
    else extensions
  Response.dynamic 250 "server offers extensions:" extensions

/-- fsm.rs: `next_state` — pick the successor depending on the response. -/
def next_state (current : SmtpSt) (res : Response) (next : Unit → SmtpSt) :
    Response × Option SmtpSt :=
  if res.action = Action.Close then (res, none)
  else if res.is_error then (res, some current)
  else (res, some (next ()))

/-- fsm.rs: `transform_state` — like `next_state` but the successor consumes
the current state. -/
def transform_state (current : SmtpSt) (res : Response) (next : SmtpSt → SmtpSt) :
    Response × Option SmtpSt :=
  if res.action = Action.Close then (res, none)
  else if res.is_error then (res, some current)
  else (res, some (next current))

/-- fsm.rs: `unhandled` — reply 503 and stay. -/
def unhandled (current : SmtpSt) : Response × Option SmtpSt :=
  (BAD_SEQUENCE_COMMANDS, some current)

/-- fsm.rs: `handle_rset` — collapse to Hello or HelloAuth per auth state,
preserving the domain. -/
def handle_rset (fsm : StateMachine) (domain : String) : Response × Option SmtpSt :=
  match fsm.auth_state with
  | AuthState.Unavailable => (OK, some (SmtpSt.Hello domain))
  | _ => (OK, some (SmtpSt.HelloAuth domain))

/-- fsm.rs: `handle_helo`. -/
def handle_helo (current : SmtpSt) (fsm : StateMachine) (h : Handler) (domain : String) :
    Response × Option SmtpSt × List HCall :=
  match fsm.auth_state with
  | AuthState.Unavailable =>
    let res := h.helo fsm.ip domain
    let rn := next_state current res fun _ => SmtpSt.Hello domain
    (rn.1, rn.2, [HCall.helo fsm.ip domain])
  | _ => (BAD_HELLO, some current, [])

/-- fsm.rs: `handle_ehlo`. -/
def handle_ehlo (current : SmtpSt) (fsm : StateMachine) (h : Handler) (domain : String) :
    Response × Option SmtpSt × List HCall :=
  let res := h.helo fsm.ip domain
  let res := if res.code = 250 then fsm.ehlo_response else res
  match fsm.auth_state with
  | AuthState.Unavailable =>
    let rn := next_state current res fun _ => SmtpSt.Hello domain
    (rn.1, rn.2, [HCall.helo fsm.ip domain])
  | _ =>
    let rn := next_state current res fun _ => SmtpSt.HelloAuth domain
    (rn.1, rn.2, [HCall.helo fsm.ip domain])

/-- fsm.rs: `authenticate_plain` — run the callback and set the auth state from
the response code. -/
def authenticate_plain (fsm : StateMachine) (h : Handler) (authorization_id : String)
    (authentication_id : String) (password : String) :
    Response × StateMachine × List HCall :=
  let auth_res := h.auth_plain authorization_id authentication_id password
  (auth_res,
    { fsm with
      auth_state :=
        if auth_res.code = 235 then AuthState.Authenticated else AuthState.RequiresAuth },
    [HCall.auth_plain authorization_id authentication_id password])

/-- fsm.rs: `authenticate_login`. -/
def authenticate_login (fsm : StateMachine) (h : Handler) (username : String)
    (password : String) : Response × StateMachine × List HCall :=
  let auth_res := h.auth_login username password
  (auth_res,
    { fsm with
      auth_state :=
        if auth_res.code = 235 then AuthState.Authenticated else AuthState.RequiresAuth },
    [HCall.auth_login username password])

/-- fsm.rs: `default_handler` — Quit/Helo/Ehlo/Noop handling shared by every
state; everything else is `unhandled`. -/
def default_handler (current : SmtpSt) (fsm : StateMachine) (h : Handler) (cmd : Cmd) :
    Response × Option SmtpSt × List HCall :=
  match cmd with
  | Cmd.Quit => (GOODBYE, none, [])
  | Cmd.Helo domain => handle_helo current fsm h domain
  | Cmd.Ehlo domain => handle_ehlo current fsm h domain
  | Cmd.Noop => (OK, some current, [])
  | _ =>
    let rn := unhandled current
    (rn.1, rn.2, [])

/-- Modelled from the spec (§4.1, §4.3; mailin's parser.rs is not under src/):
the credentials decoded from a SASL PLAIN payload. -/
structure Credentials where
  authorization_id : String
  authentication_id : String
  password : String
deriving DecidableEq, Repr

/-- Split a byte list on NUL bytes. -/
def splitOnNul (bytes : List Nat) : List (List Nat) :=
  match bytes with
  | [] => [[]]
  | b :: rest =>
    let tail := splitOnNul rest
    if b = 0 then [] :: tail
    else
      match tail with
      | [] => [[b]]
      | t :: ts => (b :: t) :: ts

/-- Render decoded SASL bytes as a string (one character per byte). -/
def bytesToString (bytes : List Nat) : String :=
  String.mk (bytes.map Char.ofNat)

/-- Modelled from the spec: `decode_sasl_plain` (mailin's parser.rs is not
under src/).  Per §4.3 the Auth state base64-decodes the line whole into
`AuthResponse{bytes}`; the decoded bytes are split on NUL into
`authz_id\x00authn_id\x00password` (§4.1). -/
def decode_sasl_plain (response : List Nat) : Credentials :=
  let parts := splitOnNul response
  { authorization_id := bytesToString (parts.getD 0 [])
    authentication_id := bytesToString (parts.getD 1 [])
    password := bytesToString (parts.getD 2 []) }

/-- Modelled from the spec: `decode_sasl_login` (mailin's parser.rs is not
under src/).  A LOGIN response carries a single base64 blob, already decoded
into the `AuthResponse` bytes per §4.3. -/
def decode_sasl_login (response : List Nat) : String :=
  bytesToString response

/-- fsm.rs: `impl State for Idle — handle`. -/
def Idle.handle (fsm : StateMachine) (h : Handler) (cmd : Cmd) :
    Response × Option SmtpSt × StateMachine × List HCall :=
  match cmd with
  | Cmd.StartedTls =>
    (EMPTY_RESPONSE, some SmtpSt.Idle, { fsm with tls := TlsState.Active }, [])
  | Cmd.Rset => (OK, some SmtpSt.Idle, fsm, [])
  | _ =>
    let rn := default_handler SmtpSt.Idle fsm h cmd
    (rn.1, rn.2.1, fsm, rn.2.2)

/-- fsm.rs: `impl State for Hello — handle`. -/
def Hello.handle (fsm : StateMachine) (h : Handler) (domain : String) (cmd : Cmd) :
    Response × Option SmtpSt × StateMachine × List HCall :=
  match cmd with
  | Cmd.Mail reverse_path is8bit =>
    let res := h.mail fsm.ip domain reverse_path
    let rn := transform_state (SmtpSt.Hello domain) res
      fun _ => SmtpSt.Mail domain reverse_path is8bit
    (rn.1, rn.2, fsm, [HCall.mail fsm.ip domain reverse_path])
  | Cmd.StartTls =>
    if fsm.tls = TlsState.Inactive then (START_TLS, some SmtpSt.Idle, fsm, [])
    else
      let rn := default_handler (SmtpSt.Hello domain) fsm h cmd
      (rn.1, rn.2.1, fsm, rn.2.2)
  | Cmd.Vrfy => (VERIFY_RESPONSE, some (SmtpSt.Hello domain), fsm, [])
  | Cmd.Rset =>
    let rn := handle_rset fsm domain
    (rn.1, rn.2, fsm, [])
  | _ =>
    let rn := default_handler (SmtpSt.Hello domain) fsm h cmd
    (rn.1, rn.2.1, fsm, rn.2.2)

/-- fsm.rs: `impl State for HelloAuth — handle`. -/
def HelloAuth.handle (fsm : StateMachine) (h : Handler) (domain : String) (cmd : Cmd) :
    Response × Option SmtpSt × StateMachine × List HCall :=
  match cmd with
  | Cmd.StartTls => (START_TLS, some SmtpSt.Idle, fsm, [])
  | Cmd.AuthPlain authorization_id authentication_id password =>
    if fsm.allow_auth_plain then
      let r := authenticate_plain fsm h authorization_id authentication_id password
      let rn := transform_state (SmtpSt.HelloAuth domain) r.1 fun _ => SmtpSt.Hello domain
      (rn.1, rn.2, r.2.1, r.2.2)
    else
      let rn := default_handler (SmtpSt.HelloAuth domain) fsm h cmd
      (rn.1, rn.2.1, fsm, rn.2.2)
  | Cmd.AuthPlainEmpty =>
    if fsm.allow_auth_plain then
      (EMPTY_AUTH_CHALLENGE, some (SmtpSt.Auth domain AuthMechanism.Plain none), fsm, [])
    else
      let rn := default_handler (SmtpSt.HelloAuth domain) fsm h cmd
      (rn.1, rn.2.1, fsm, rn.2.2)
  | Cmd.AuthLogin username =>
    if fsm.allow_auth_login then
      (PASSWORD_AUTH_CHALLENGE, some (SmtpSt.Auth domain AuthMechanism.Login (some username)),
        fsm, [])
    else
      let rn := default_handler (SmtpSt.HelloAuth domain) fsm h cmd
      (rn.1, rn.2.1, fsm, rn.2.2)
  | Cmd.AuthLoginEmpty =>
    if fsm.allow_auth_login then
      (USERNAME_AUTH_CHALLENGE, some (SmtpSt.Auth domain AuthMechanism.Login none), fsm, [])
    else
      let rn := default_handler (SmtpSt.HelloAuth domain) fsm h cmd
      (rn.1, rn.2.1, fsm, rn.2.2)
  | Cmd.Rset =>
    let rn := handle_rset fsm domain
    (rn.1, rn.2, fsm, [])
  | _ =>
    let rn := default_handler (SmtpSt.HelloAuth domain) fsm h cmd
    (rn.1, rn.2.1, fsm, rn.2.2)

/-- fsm.rs: `impl State for Auth — handle`.  A failed SASL exchange returns the
error response and moves to HelloAuth; a successful one moves to Hello; any
command other than an AuthResponse is `unhandled`. -/
def Auth.handle (fsm : StateMachine) (h : Handler) (domain : String)
    (mechanism : AuthMechanism) (username : Option String) (cmd : Cmd) :
    Response × Option SmtpSt × StateMachine × List HCall :=
  match cmd with
  | Cmd.AuthResponse response =>
    match mechanism with
    | AuthMechanism.Plain =>
      let creds := decode_sasl_plain response
      let r := authenticate_plain fsm h creds.authorization_id creds.authentication_id
        creds.password
      if r.1.is_error then (r.1, some (SmtpSt.HelloAuth domain), r.2.1, r.2.2)
      else (r.1, some (SmtpSt.Hello domain), r.2.1, r.2.2)
    | AuthMechanism.Login =>
      let credential := decode_sasl_login response
      match username with
      | some u =>
        let r := authenticate_login fsm h u credential
        if r.1.is_error then (r.1, some (SmtpSt.HelloAuth domain), r.2.1, r.2.2)
        else (r.1, some (SmtpSt.Hello domain), r.2.1, r.2.2)
      | none =>
        (PASSWORD_AUTH_CHALLENGE,
          some (SmtpSt.Auth domain AuthMechanism.Login (some credential)), fsm, [])
  | _ =>
    let rn := unhandled (SmtpSt.Auth domain mechanism username)
    (rn.1, rn.2, fsm, [])

/-- fsm.rs: `impl State for Mail — handle`. -/
def MailSt.handle (fsm : StateMachine) (h : Handler) (domain : String)
    (reverse_path : String) (is8bit : Bool) (cmd : Cmd) :
    Response × Option SmtpSt × StateMachine × List HCall :=
  match cmd with
  | Cmd.Rcpt forward_path =>
    let res := h.rcpt forward_path
    let rn := transform_state (SmtpSt.Mail domain reverse_path is8bit) res
      fun _ => SmtpSt.Rcpt domain reverse_path is8bit [forward_path]
    (rn.1, rn.2, fsm, [HCall.rcpt forward_path])
  | Cmd.Rset =>
    let rn := handle_rset fsm domain
    (rn.1, rn.2, fsm, [])
  | _ =>
    let rn := default_handler (SmtpSt.Mail domain reverse_path is8bit) fsm h cmd
    (rn.1, rn.2.1, fsm, rn.2.2)

/-- fsm.rs: `impl State for Rcpt — handle`. -/
def RcptSt.handle (fsm : StateMachine) (h : Handler) (domain : String)
    (reverse_path : String) (is8bit : Bool) (forward_path : List String) (cmd : Cmd) :
    Response × Option SmtpSt × StateMachine × List HCall :=
  match cmd with
  | Cmd.Data =>
    let res := h.data_start domain reverse_path is8bit forward_path
    let res := if res.is_error then res else START_DATA
    let rn := transform_state (SmtpSt.Rcpt domain reverse_path is8bit forward_path) res
      fun _ => SmtpSt.Data domain false
    (rn.1, rn.2, fsm, [HCall.data_start domain reverse_path is8bit forward_path])
  | Cmd.Rcpt fp =>
    let res := h.rcpt fp
    let rn := transform_state (SmtpSt.Rcpt domain reverse_path is8bit forward_path) res
      fun _ => SmtpSt.Rcpt domain reverse_path is8bit (forward_path ++ [fp])
    (rn.1, rn.2, fsm, [HCall.rcpt fp])
  | Cmd.Rset =>
    let rn := handle_rset fsm domain
    (rn.1, rn.2, fsm, [])
  | _ =>
    let rn := default_handler (SmtpSt.Rcpt domain reverse_path is8bit forward_path) fsm h cmd
    (rn.1, rn.2.1, fsm, rn.2.2)

/-- fsm.rs: `impl State for Data — handle`.  On DataEnd the handler's error was
already reported when `has_error`, so EMPTY_RESPONSE is used; otherwise
`handler.data_end()` supplies the response.  Every other command is
`unhandled`. -/
def DataSt.handle (fsm : StateMachine) (h : Handler) (domain : String) (has_error : Bool)
    (cmd : Cmd) : Response × Option SmtpSt × StateMachine × List HCall :=
  match cmd with
  | Cmd.DataEnd =>
    let res := if has_error then EMPTY_RESPONSE else h.data_end
    let rn := transform_state (SmtpSt.Data domain has_error) res fun _ => SmtpSt.Hello domain
    (rn.1, rn.2, fsm, if has_error then [] else [HCall.data_end])
  | _ =>
    let rn := unhandled (SmtpSt.Data domain has_error)
    (rn.1, rn.2, fsm, [])

/-- fsm.rs: `impl State for Data — process_line`.  The literal line `.\r\n` is
DataEnd; when poisoned nothing is processed; otherwise one leading `.` is
stripped and the line is handed to `handler.data`.  Returns the
command-or-response, the new `has_error` flag, and the handler trace. -/
def DataSt.process_line (has_error : Bool) (h : Handler) (line : List Nat) :
    Sum Cmd Response × Bool × List HCall :=
  if line = [46, 13, 10] then (Sum.inl Cmd.DataEnd, has_error, [])
  else if has_error then (Sum.inr EMPTY_RESPONSE, has_error, [])
  else
    let line := if [46].isPrefixOf line then line.drop 1 else line
    match h.data line with
    | Except.ok _ => (Sum.inr EMPTY_RESPONSE, has_error, [HCall.data line])
    | Except.error _ => (Sum.inr TRANSACTION_FAILED, true, [HCall.data line])

/-- fsm.rs: dispatch of the `State::handle` trait method over the state
objects. -/
def SmtpSt.handle (st : SmtpSt) (fsm : StateMachine) (h : Handler) (cmd : Cmd) :
    Response × Option SmtpSt × StateMachine × List HCall :=
  match st with
  | SmtpSt.Idle => Idle.handle fsm h cmd
  | SmtpSt.Hello domain => Hello.handle fsm h domain cmd
  | SmtpSt.HelloAuth domain => HelloAuth.handle fsm h domain cmd
  | SmtpSt.Auth domain mechanism username => Auth.handle fsm h domain mechanism username cmd
  | SmtpSt.Mail domain reverse_path is8bit => MailSt.handle fsm h domain reverse_path is8bit cmd
  | SmtpSt.Rcpt domain reverse_path is8bit forward_path =>
    RcptSt.handle fsm h domain reverse_path is8bit forward_path cmd
  | SmtpSt.Data domain has_error => DataSt.handle fsm h domain has_error cmd

/-- fsm.rs: `StateMachine::command` — take the current state object, let it
handle the command, store the successor.  A terminated machine (state None)
replies INVALID_STATE and stays terminated. -/
def StateMachine.command (fsm : StateMachine) (h : Handler) (cmd : Cmd) :
    Response × StateMachine × List HCall :=
  match fsm.smtp with
  | some last_state =>
    let r := last_state.handle fsm h cmd
    (r.1, { r.2.2.1 with smtp := r.2.1 }, r.2.2.2)
  | none => (INVALID_STATE, { fsm with smtp := none }, [])

/-- fsm.rs: `StateMachine::current_state`. -/
def StateMachine.current_state (fsm : StateMachine) : SmtpState :=
  (fsm.smtp.map SmtpSt.id).getD SmtpState.Invalid

/-- Run a list of commands through the state machine, keeping only the final
machine. -/
def StateMachine.runCmds (fsm : StateMachine) (h : Handler) : List Cmd → StateMachine
  | [] => fsm
  | c :: cs => ((fsm.command h c).2.1).runCmds h cs

/-- A handler that accepts everything (HELO/MAIL/RCPT with 250, AUTH with 235,
data writes succeed). -/
def okHandler : Handler :=
  { helo := fun _ _ => OK
    auth_plain := fun _ _ _ => AUTH_OK
    auth_login := fun _ _ => AUTH_OK
    mail := fun _ _ _ => OK
    rcpt := fun _ => OK
    data_start := fun _ _ _ _ => OK
    data := fun _ => Except.ok ()
    data_end := OK }

/-- A handler that rejects authentication with 535. -/
def rejectAuthHandler : Handler :=
  { okHandler with
    auth_plain := fun _ _ _ =>
      { code := 535, action := Action.Reply, is_error := true, message := "auth failed" }
    auth_login := fun _ _ =>
      { code := 535, action := Action.Reply, is_error := true, message := "auth failed" } }

/-- A handler whose auth_plain callback answers with a Close-actioned 421. -/
def closeAuthHandler : Handler :=
  { okHandler with
    auth_plain := fun _ _ _ =>
      { code := 421, action := Action.Close, is_error := true, message := "shutting down" } }

/-- A handler whose auth_plain callback answers 250 — not 235, yet not an
error. -/
def weirdAuthHandler : Handler :=
  { okHandler with
    auth_plain := fun _ _ _ =>
      { code := 250, action := Action.Reply, is_error := false, message := "ok but not 235" } }

/-- A handler that rejects MAIL with 550. -/
def rejectMailHandler : Handler :=
  { okHandler with
    mail := fun _ _ _ =>
      { code := 550, action := Action.Reply, is_error := true, message := "mailbox unavailable" } }

/-- A handler whose data callback always fails. -/
def failDataHandler : Handler :=
  { okHandler with data := fun _ => Except.error "disk full" }

end Mailin

namespace MimeEvent

/-- Modelled from the spec (§3 MIME parser entities; mime-event's event.rs is
not under src/): the multipart kinds carried by `Mime::Multipart`. -/
inductive Multipart
  | Mixed
  | Alternative
  | Digest
  | Other
deriving DecidableEq, Repr

/-- Modelled from the spec (§3): `Mime ∈ {Type(bytes), Multipart(kind)}`.  The
`Type` arm is spelled `Ty` because `Type` is reserved in Lean. -/
inductive Mime
  | Ty (t : List Nat)
  | Multipart (m : Multipart)
deriving DecidableEq, Repr

/-- Modelled from the spec (§4.4; mime-event's header.rs and line_parser.rs are
not under src/): a parsed header token.  Content-Type carries the mime type and
its key=value parameter list; all other headers are kept generically, which is
all any claim needs. -/
inductive HeaderTok
  | ContentType (mime_type : List Nat) (parameters : List (List Nat × List Nat))
  | Generic (name : List Nat) (value : List Nat)
deriving DecidableEq, Repr

/-- Modelled from the spec (§4.4): the events emitted by the parser; event.rs
is not under src/. -/
inductive Event
  | Start
  | End
  | Header (h : HeaderTok)
  | BodyStart (offset : Nat)
  | Body (line : List Nat)
  | PartStart (offset : Nat)
  | PartEnd (offset : Nat)
  | MultipartStart (m : Multipart)
  | MultipartEnd
deriving DecidableEq, Repr

/-- parser.rs: `enum State` of the event parser. -/
inductive MState
  | Start
  | Header
  | MultipartHeader
  | MultipartPreamble
  | PartStart
  | Body
deriving DecidableEq, Repr

/-- parser.rs: `struct MultipartState` — a frame of the multipart stack. -/
structure MultipartState where
  content_type : Multipart
  boundary : List Nat
deriving DecidableEq, Repr

/-- Modelled from the spec (§4.4; mime-event's header_buffer.rs is not under
src/): the header buffer joins continuation lines (lines beginning with
whitespace) onto the previous logical header; a complete logical line is
released when the following non-continuation line arrives, and `take` releases
whatever is still buffered.  The buffered entry keeps the joined bytes together
with the raw byte length consumed. -/
structure HeaderBuffer where
  buffered : Option (List Nat × Nat)
deriving DecidableEq, Repr

/-- Whether a header line is a continuation line (starts with space or tab). -/
def isContinuation (buf : List Nat) : Bool :=
  match buf with
  | 32 :: _ => true
  | 9 :: _ => true
  | _ => false

/-- Modelled from the spec: `HeaderBuffer::take` — release the buffered logical
line, emptying the buffer. -/
def HeaderBuffer.take (hb : HeaderBuffer) : Option (List Nat × Nat) × HeaderBuffer :=
  (hb.buffered, { buffered := none })

/-- Modelled from the spec: `HeaderBuffer::next_line` — buffer the incoming
line; a continuation is joined onto the buffered logical header, a
non-continuation releases the previous logical line (if any) and starts a new
one. -/
def HeaderBuffer.next_line (hb : HeaderBuffer) (buf : List Nat) :
    Option (List Nat × Nat) × HeaderBuffer :=
  match hb.buffered with
  | none => (none, { buffered := some (buf, buf.length) })
  | some (line, length) =>
    if isContinuation buf then (none, { buffered := some (line ++ buf, length + buf.length) })
    else (some (line, length), { buffered := some (buf, buf.length) })

/-- Lowercase ASCII letters in a byte list. -/
def lowerBytes (bytes : List Nat) : List Nat :=
  bytes.map fun b => if 65 ≤ b ∧ b ≤ 90 then b + 32 else b

/-- Drop leading ASCII spaces and tabs. -/
def trimLeft (bytes : List Nat) : List Nat :=
  bytes.dropWhile fun b => b = 32 || b = 9

/-- Drop trailing ASCII whitespace (space, tab, CR, LF). -/
def trimRight (bytes : List Nat) : List Nat :=
  (bytes.reverse.dropWhile fun b => b = 32 || b = 9 || b = 13 || b = 10).reverse

/-- Split a byte list at every occurrence of the given byte. -/
def splitOnByte (sep : Nat) (bytes : List Nat) : List (List Nat) :=
  match bytes with
  | [] => [[]]
  | b :: rest =>
    let tail := splitOnByte sep rest
    if b = sep then [] :: tail
    else
      match tail with
      | [] => [[b]]
      | t :: ts => (b :: t) :: ts

/-- Strip one pair of surrounding double quotes, if present. -/
def unquote (bytes : List Nat) : List Nat :=
  match bytes with
  | 34 :: rest =>
    match rest.reverse with
    | 34 :: mid => mid.reverse
    | _ => bytes
  | _ => bytes

/-- Split a byte list at the first occurrence of the given byte, if any. -/
def splitFirst (sep : Nat) : List Nat → Option (List Nat × List Nat)
  | [] => none
  | b :: rest =>
    if b = sep then some ([], rest)
    else
      match splitFirst sep rest with
      | none => none
      | some (l, r) => some (b :: l, r)

/-- Modelled from the spec (§4.4 Content-Type parsing; line_parser.rs is not
under src/): split a Content-Type value on `;` into the mime type and a
key=value parameter list, stripping whitespace and one level of quotes. -/
def parseParams (value : List Nat) : List Nat × List (List Nat × List Nat) :=
  match splitOnByte 59 value with
  | [] => (trimRight (trimLeft value), [])
  | mtype :: rest =>
    let params := rest.filterMap fun p =>
      match splitFirst 61 p with
      | some (k, v) => some (trimRight (trimLeft k), unquote (trimRight (trimLeft v)))
      | none => none
    (trimRight (trimLeft mtype), params)

/-- Modelled from the spec (§4.4; line_parser.rs is not under src/): tokenize
an RFC-822 style `Name: value` header line.  A line without a colon is a syntax
failure, reported as a 500 response (§4.1). -/
def headerToken (buf : List Nat) : Except Mailin.Response HeaderTok :=
  match splitFirst 58 buf with
  | none =>
    Except.error
      { code := 500, action := Mailin.Action.Reply, is_error := true,
        message := "command not recognized" }
  | some (name, value) =>
    if lowerBytes name = (("content-type").toList.map Char.toNat) then
      let mv := parseParams value
      Except.ok (HeaderTok.ContentType mv.1 mv.2)
    else Except.ok (HeaderTok.Generic name (trimRight (trimLeft value)))

/-- Modelled from the spec (§4.4; event.rs is not under src/): classify a mime
type byte string, mapping `multipart/*` subtypes onto the Multipart kinds. -/
def mime_type (mtype : List Nat) : Mime :=
  let low := lowerBytes mtype
  if (("multipart/").toList.map Char.toNat).isPrefixOf low then
    let sub := low.drop 10
    if sub = (("mixed").toList.map Char.toNat) then Mime.Multipart Multipart.Mixed
    else if sub = (("alternative").toList.map Char.toNat) then
      Mime.Multipart Multipart.Alternative
    else if sub = (("digest").toList.map Char.toNat) then Mime.Multipart Multipart.Digest
    else Mime.Multipart Multipart.Other
  else Mime.Ty mtype

/-- parser.rs: `struct EventParser`.  The handler is replaced by collecting the
emitted events into lists returned by each operation. -/
structure EventParser where
  state : MState
  offset : Nat
  content_type : Mime
  boundary : Option (List Nat)
  multipart_stack : List MultipartState
  header_buffer : HeaderBuffer
deriving DecidableEq, Repr

/-- parser.rs: `EventParser::new`. -/
def EventParser.new : EventParser :=
  { state := MState.Start
    offset := 0
    content_type := Mime.Ty (("text/plain").toList.map Char.toNat)
    boundary := none
    multipart_stack := []
    header_buffer := { buffered := none } }

/-- parser.rs: `EventParser::is_open_boundary` — the line starts with the
stored boundary. -/
def EventParser.is_open_boundary (p : EventParser) (buf : List Nat) : Bool :=
  match p.boundary with
  | none => false
  | some b => b.isPrefixOf buf

/-- parser.rs: `EventParser::is_close_boundary` — the line starts with the
stored boundary, is longer than `boundary.len() + 2`, and ends with
`--\r\n`. -/
def EventParser.is_close_boundary (p : EventParser) (buf : List Nat) : Bool :=
  match p.boundary with
  | none => false
  | some b =>
    b.isPrefixOf buf && decide (b.length + 2 < buf.length) && [45, 45, 13, 10].isSuffixOf buf

/-- parser.rs: `EventParser::content_type` — on a Content-Type header, push the
current multipart frame (when one is active), install the new mime type, and
for a multipart type store `--` ++ the boundary parameter (when present). -/
def EventParser.content_type_update (p : EventParser) (mtype : List Nat)
    (params : List (List Nat × List Nat)) : EventParser :=
  let p :=
    match p.content_type, p.boundary with
    | Mime.Multipart m, some b =>
      { p with multipart_stack := MultipartState.mk m b :: p.multipart_stack }
    | _, _ => p
  let p := { p with content_type := mime_type mtype }
  match p.content_type with
  | Mime.Multipart _ =>
    { p with
      boundary :=
        (params.lookup (("boundary").toList.map Char.toNat)).map
          fun boundary => [45, 45] ++ boundary }
  | _ => p

/-- parser.rs: `EventParser::header_field` — a bare CRLF ends the header block
(emitting BodyStart from a non-multipart header); any other line is tokenized,
Content-Type headers update the multipart bookkeeping, and the token is emitted
as a Header event.  Returns the updated parser, the emitted events, and the
next state or the parse failure. -/
def EventParser.header_field (p : EventParser) (buf : List Nat) (state : MState) :
    EventParser × List Event × Except Mailin.Response MState :=
  if [13, 10].isPrefixOf buf then
    match state with
    | MState.MultipartHeader =>
      ({ p with state := MState.MultipartPreamble }, [], Except.ok MState.MultipartPreamble)
    | _ =>
      ({ p with state := MState.Body }, [Event.BodyStart (p.offset + 2)],
        Except.ok MState.Body)
  else
    match headerToken buf with
    | Except.error r => (p, [], Except.error r)
    | Except.ok token =>
      let p :=
        match token with
        | HeaderTok.ContentType mtype params => p.content_type_update mtype params
        | _ => p
      match p.content_type with
      | Mime.Multipart _ => (p, [Event.Header token], Except.ok MState.MultipartHeader)
      | _ => (p, [Event.Header token], Except.ok state)

/-- parser.rs: `EventParser::handle_line` — dispatch a complete logical line on
the current state; on success the state is replaced by the computed successor
and the offset advances by `buf_len`.  The `Start` case is `unreachable!()` in
the source (handle_write always leaves Start first) and is mapped to a no-op.
Returns the updated parser, the emitted events, and an error response when
header tokenization failed. -/
def EventParser.handle_line (p : EventParser) (buf : List Nat) (buf_len : Nat) :
    EventParser × List Event × Option Mailin.Response :=
  match p.state with
  | MState.Start => (p, [], none)
  | MState.MultipartHeader =>
    let r := p.header_field buf MState.MultipartHeader
    match r.2.2 with
    | Except.error e => (r.1, r.2.1, some e)
    | Except.ok nxt =>
      ({ r.1 with state := nxt, offset := r.1.offset + buf_len }, r.2.1, none)
  | MState.Header =>
    let r := p.header_field buf MState.Header
    match r.2.2 with
    | Except.error e => (r.1, r.2.1, some e)
    | Except.ok nxt =>
      ({ r.1 with state := nxt, offset := r.1.offset + buf_len }, r.2.1, none)
  | MState.PartStart =>
    let r := p.header_field buf MState.Header
    match r.2.2 with
    | Except.error e => (r.1, Event.PartStart p.offset :: r.2.1, some e)
    | Except.ok nxt =>
      ({ r.1 with state := nxt, offset := r.1.offset + buf_len },
        Event.PartStart p.offset :: r.2.1, none)
  | MState.MultipartPreamble =>
    if p.is_open_boundary buf then
      let evs :=
        match p.content_type with
        | Mime.Multipart m => [Event.MultipartStart m]
        | _ => []
      ({ p with state := MState.PartStart, offset := p.offset + buf_len }, evs, none)
    else ({ p with offset := p.offset + buf_len }, [], none)
  | MState.Body =>
    if p.is_close_boundary buf then
      let evs := [Event.PartEnd p.offset, Event.MultipartEnd]
      match p.multipart_stack with
      | last :: rest =>
        ({ p with
            content_type := Mime.Multipart last.content_type
            boundary := some last.boundary
            multipart_stack := rest
            state := MState.Header
            offset := p.offset + buf_len }, evs, none)
      | [] =>
        ({ p with state := MState.Header, offset := p.offset + buf_len }, evs, none)
    else if p.is_open_boundary buf then
      ({ p with state := MState.PartStart, offset := p.offset + buf_len },
        [Event.PartEnd p.offset], none)
    else
      ({ p with offset := p.offset + buf_len }, [Event.Body buf], none)

/-- parser.rs: `EventParser::handle_header` — route a raw header-section line
through the header buffer: a bare CRLF first flushes the buffered logical
header, any other line is buffered and possibly releases the previous logical
header. -/
def EventParser.handle_header (p : EventParser) (buf : List Nat) :
    EventParser × List Event × Option Mailin.Response :=
  if [13, 10].isPrefixOf buf then
    match p.header_buffer.take with
    | (some (line, length), hb) =>
      let p1 := { p with header_buffer := hb }
      let r := p1.handle_line line length
      match r.2.2 with
      | some e => (r.1, r.2.1, some e)
      | none =>
        let r2 := r.1.handle_line buf buf.length
        (r2.1, r.2.1 ++ r2.2.1, r2.2.2)
    | (none, hb) => EventParser.handle_line { p with header_buffer := hb } buf buf.length
  else
    match p.header_buffer.next_line buf with
    | (some (line, length), hb) =>
      EventParser.handle_line { p with header_buffer := hb } line length
    | (none, hb) => ({ p with header_buffer := hb }, [], none)

/-- parser.rs: `EventParser::handle_write` — the first write emits Start and
enters Header; header-section states route through the header buffer; body
states process the line directly. -/
def EventParser.handle_write (p : EventParser) (buf : List Nat) :
    EventParser × List Event × Option Mailin.Response :=
  match p.state with
  | MState.Start =>
    let r := EventParser.handle_header { p with state := MState.Header } buf
    (r.1, Event.Start :: r.2.1, r.2.2)
  | MState.Header => p.handle_header buf
  | MState.MultipartHeader => p.handle_header buf
  | MState.PartStart => p.handle_header buf
  | _ => p.handle_line buf buf.length

/-- parser.rs: `EventParser::data` — one line of input. -/
def EventParser.data (p : EventParser) (buf : List Nat) :
    EventParser × List Event × Option Mailin.Response :=
  p.handle_write buf

/-- parser.rs: `EventParser::end` (spelled `finish`; `end` is reserved in
Lean) — emit the End event. -/
def EventParser.finish (_p : EventParser) : List Event :=
  [Event.End]

/-- Feed a list of lines to the parser, collecting all emitted events in
order. -/
def EventParser.dataList (p : EventParser) : List (List Nat) → EventParser × List Event
  | [] => (p, [])
  | l :: ls =>
    let r := p.data l
    let rest := r.1.dataList ls
    (rest.1, r.2.1 ++ rest.2)

/-- The full event stream of a message: a fresh parser, all `data` calls in
order, then `end`. -/
def EventParser.runLines (lines : List (List Nat)) : List Event :=
  let r := EventParser.new.dataList lines
  r.2 ++ r.1.finish

/-- A concrete parser state: in Body, stored boundary `--X`, one stacked
multipart frame with boundary `--Y`. -/
def bodyParserExample : EventParser :=
  { state := MState.Body
    offset := 5
    content_type := Mime.Multipart Multipart.Mixed
    boundary := some [45, 45, 88]
    multipart_stack := [MultipartState.mk Multipart.Alternative [45, 45, 89]]
    header_buffer := { buffered := none } }

end MimeEvent

namespace Mailin

theorem next_state_fst (c : SmtpSt) (res : Response) (n : Unit → SmtpSt) :
    (next_state c res n).1 = res := by
  unfold next_state
  split_ifs <;> rfl

theorem next_state_close_none (c : SmtpSt) (res : Response) (n : Unit → SmtpSt)
    (hc : res.action = Action.Close) : (next_state c res n).2 = none := by
  simp [next_state, hc]

theorem next_state_err_keep (c : SmtpSt) (res : Response) (n : Unit → SmtpSt)
    (he : res.is_error = true) (hc : res.action ≠ Action.Close) :
    (next_state c res n).2 = some c := by
  simp [next_state, hc, he]

theorem transform_state_fst (c : SmtpSt) (res : Response) (n : SmtpSt → SmtpSt) :
    (transform_state c res n).1 = res := by
  unfold transform_state
  split_ifs <;> rfl

theorem transform_state_close_none (c : SmtpSt) (res : Response) (n : SmtpSt → SmtpSt)
    (hc : res.action = Action.Close) : (transform_state c res n).2 = none := by
  simp [transform_state, hc]

theorem transform_state_err_keep (c : SmtpSt) (res : Response) (n : SmtpSt → SmtpSt)
    (he : res.is_error = true) (hc : res.action ≠ Action.Close) :
    (transform_state c res n).2 = some c := by
  simp [transform_state, hc, he]

theorem handle_rset_fst (fsm : StateMachine) (d : String) : (handle_rset fsm d).1 = OK := by
  obtain ⟨ip, ams, aust, tls, smtp, ap, al, ins⟩ := fsm
  unfold handle_rset
  cases aust <;> rfl

theorem handle_helo_keep (cur : SmtpSt) (fsm : StateMachine) (h : Handler) (d : String)
    (he : (handle_helo cur fsm h d).1.is_error = true)
    (hc : (handle_helo cur fsm h d).1.action ≠ Action.Close) :
    (handle_helo cur fsm h d).2.1 = some cur := by
  obtain ⟨ip, ams, aust, tls, smtp, ap, al, ins⟩ := fsm
  unfold handle_helo at *
  cases aust with
  | Unavailable =>
    simp only [next_state_fst] at he hc
    simp [next_state_err_keep _ _ _ he hc]
  | RequiresAuth => rfl
  | Authenticated => rfl

theorem handle_helo_close (cur : SmtpSt) (fsm : StateMachine) (h : Handler) (d : String)
    (hc : (handle_helo cur fsm h d).1.action = Action.Close) :
    (handle_helo cur fsm h d).2.1 = none := by
  obtain ⟨ip, ams, aust, tls, smtp, ap, al, ins⟩ := fsm
  unfold handle_helo at *
  cases aust with
  | Unavailable =>
    simp only [next_state_fst] at hc
    simp [next_state_close_none _ _ _ hc]
  | RequiresAuth => simp [BAD_HELLO] at hc
  | Authenticated => simp [BAD_HELLO] at hc

theorem handle_ehlo_keep (cur : SmtpSt) (fsm : StateMachine) (h : Handler) (d : String)
    (he : (handle_ehlo cur fsm h d).1.is_error = true)
    (hc : (handle_ehlo cur fsm h d).1.action ≠ Action.Close) :
    (handle_ehlo cur fsm h d).2.1 = some cur := by
  obtain ⟨ip, ams, aust, tls, smtp, ap, al, ins⟩ := fsm
  unfold handle_ehlo at *
  cases aust with
  | Unavailable =>
    simp only [next_state_fst] at he hc
    simp [next_state_err_keep _ _ _ he hc]
  | RequiresAuth =>
    simp only [next_state_fst] at he hc
    simp [next_state_err_keep _ _ _ he hc]
  | Authenticated =>
    simp only [next_state_fst] at he hc
    simp [next_state_err_keep _ _ _ he hc]

theorem handle_ehlo_close (cur : SmtpSt) (fsm : StateMachine) (h : Handler) (d : String)
    (hc : (handle_ehlo cur fsm h d).1.action = Action.Close) :
    (handle_ehlo cur fsm h d).2.1 = none := by
  obtain ⟨ip, ams, aust, tls, smtp, ap, al, ins⟩ := fsm
  unfold handle_ehlo at *
  cases aust with
  | Unavailable =>
    simp only [next_state_fst] at hc
    simp [next_state_close_none _ _ _ hc]
  | RequiresAuth =>
    simp only [next_state_fst] at hc
    simp [next_state_close_none _ _ _ hc]
  | Authenticated =>
    simp only [next_state_fst] at hc
    simp [next_state_close_none _ _ _ hc]

theorem default_handler_keep (cur : SmtpSt) (fsm : StateMachine) (h : Handler) (cmd : Cmd)
    (he : (default_handler cur fsm h cmd).1.is_error = true)
    (hc : (default_handler cur fsm h cmd).1.action ≠ Action.Close) :
    (default_handler cur fsm h cmd).2.1 = some cur := by
  cases cmd <;>
    first
      | (exact handle_helo_keep cur fsm h _ he hc)
      | (exact handle_ehlo_keep cur fsm h _ he hc)
      | rfl
      | (simp [default_handler, GOODBYE, OK] at he hc)

theorem default_handler_close (cur : SmtpSt) (fsm : StateMachine) (h : Handler) (cmd : Cmd)
    (hc : (default_handler cur fsm h cmd).1.action = Action.Close) :
    (default_handler cur fsm h cmd).2.1 = none := by
  cases cmd <;>
    first
      | (exact handle_helo_close cur fsm h _ hc)
      | (exact handle_ehlo_close cur fsm h _ hc)
      | rfl
      | (simp [default_handler, OK, BAD_SEQUENCE_COMMANDS, unhandled] at hc)

end Mailin

namespace Mailin

/-- C2: after the internal StartedTls command is consumed in Idle, the state
machine is in the Idle phase and TLS is Active — but, contrary to the claim
(and RFC 3207, which the spec cites), `auth_state` is NOT cleared: a session
that authenticated before STARTTLS is still Authenticated after the TLS
upgrade.  This run configures PLAIN auth with plaintext auth allowed,
authenticates, upgrades, and finds auth_state = Authenticated. -/
theorem c2_starttls_does_not_clear_auth :
    ((StateMachine.new 0 [AuthMechanism.Plain] true true).runCmds okHandler
        [Cmd.Ehlo "client", Cmd.AuthPlain "" "alice" "secret", Cmd.StartTls,
          Cmd.StartedTls]).current_state = SmtpState.Idle ∧
    ((StateMachine.new 0 [AuthMechanism.Plain] true true).runCmds okHandler
        [Cmd.Ehlo "client", Cmd.AuthPlain "" "alice" "secret", Cmd.StartTls,
          Cmd.StartedTls]).tls = TlsState.Active ∧
    ((StateMachine.new 0 [AuthMechanism.Plain] true true).runCmds okHandler
        [Cmd.Ehlo "client", Cmd.AuthPlain "" "alice" "secret", Cmd.StartTls,
          Cmd.StartedTls]).auth_state = AuthState.Authenticated ∧
    AuthState.Authenticated ≠ AuthState.Unavailable := by
  decide

/-- C3 counterexample: with authentication required, a MAIL command in
HelloAuth is answered with code 503 (BAD_SEQUENCE_COMMANDS via `unhandled`),
not with 530 as the claim states; the phase does not change. -/
theorem c3_counterexample :
    (StateMachine.new 0 [AuthMechanism.Plain] true true).auth_state =
      AuthState.RequiresAuth ∧
    ((SmtpSt.HelloAuth "client").handle (StateMachine.new 0 [AuthMechanism.Plain] true true)
        okHandler (Cmd.Mail "reverse" false)).1.code = 503 ∧
    ((SmtpSt.HelloAuth "client").handle (StateMachine.new 0 [AuthMechanism.Plain] true true)
        okHandler (Cmd.Mail "reverse" false)).1.code ≠ 530 ∧
    ((SmtpSt.HelloAuth "client").handle (StateMachine.new 0 [AuthMechanism.Plain] true true)
        okHandler (Cmd.Mail "reverse" false)).2.1 = some (SmtpSt.HelloAuth "client") := by
  decide

/-- C3 (amended): whenever AuthState=RequiresAuth, a MAIL command in HelloAuth
is rejected with 503 BAD_SEQUENCE_COMMANDS (not 530), the phase does not
change, the machine state is untouched and no handler callback runs. -/
theorem c3_mail_rejected_in_helloauth (fsm : StateMachine) (h : Handler)
    (d rp : String) (i8 : Bool) (hreq : fsm.auth_state = AuthState.RequiresAuth) :
    (SmtpSt.HelloAuth d).handle fsm h (Cmd.Mail rp i8) =
      (BAD_SEQUENCE_COMMANDS, some (SmtpSt.HelloAuth d), fsm, []) := by
  rfl

/-- C3 witness: the amended theorem applied at a concrete machine that
requires authentication. -/
theorem c3_witness :
    (StateMachine.new 0 [AuthMechanism.Plain] true true).auth_state =
      AuthState.RequiresAuth ∧
    (SmtpSt.HelloAuth "client").handle (StateMachine.new 0 [AuthMechanism.Plain] true true)
        okHandler (Cmd.Mail "reverse" false) =
      (BAD_SEQUENCE_COMMANDS, some (SmtpSt.HelloAuth "client"),
        StateMachine.new 0 [AuthMechanism.Plain] true true, []) :=
  ⟨by decide,
    c3_mail_rejected_in_helloauth (StateMachine.new 0 [AuthMechanism.Plain] true true)
      okHandler "client" "reverse" false (by decide)⟩

/-- C6: in the Data phase the literal line `.\r\n` becomes DataEnd and is never
handed to handler.data (whatever the poison flag); any other line beginning
with `.` is delivered with exactly one leading dot removed; a line not
beginning with `.` is delivered unchanged. -/
theorem c6_dot_unstuffing (h : Handler) (e : Bool) (line : List Nat) :
    (DataSt.process_line e h [46, 13, 10] = (Sum.inl Cmd.DataEnd, e, [])) ∧
    (line ≠ [46, 13, 10] → line.head? = some 46 →
      (DataSt.process_line false h line).2.2 = [HCall.data (line.drop 1)]) ∧
    (line.head? ≠ some 46 → line ≠ [46, 13, 10] →
      (DataSt.process_line false h line).2.2 = [HCall.data line]) := by
  refine ⟨by simp [DataSt.process_line], ?_, ?_⟩
  · intro hne hhd
    match line, hhd with
    | 46 :: rest, _ =>
      simp only [DataSt.process_line, if_neg hne, if_neg (by simp : ¬(false = true))]
      have hpre : [46].isPrefixOf (46 :: rest) = true := by simp [List.isPrefixOf]
      simp only [hpre, if_pos rfl, List.drop_succ_cons, List.drop_zero]
      cases hd : h.data rest <;> simp [hd]
  · intro hhd hne
    have hpre : [46].isPrefixOf line = false := by
      cases line with
      | nil => rfl
      | cons b rest =>
        simp only [List.head?_cons, ne_eq, Option.some.injEq] at hhd
        simp only [List.isPrefixOf, List.isPrefixOf_nil_left, Bool.and_true, beq_iff_eq]
        exact decide_eq_false fun hc => hhd hc.symm
    simp only [DataSt.process_line, if_neg hne, if_neg (by simp : ¬(false = true)), hpre,
      Bool.false_eq_true, if_false]
    cases hd : h.data line <;> simp [hd]

/-- C6 witness: the dot-stuffed line `..x\r\n` is delivered as `.x\r\n`, and
`.\r\n` becomes DataEnd without any delivery. -/
theorem c6_witness :
    ([46, 46, 120, 13, 10] ≠ [46, 13, 10]) ∧
    (([46, 46, 120, 13, 10] : List Nat).head? = some 46) ∧
    (DataSt.process_line false okHandler [46, 46, 120, 13, 10]).2.2 =
      [HCall.data [46, 120, 13, 10]] ∧
    DataSt.process_line false okHandler [46, 13, 10] = (Sum.inl Cmd.DataEnd, false, []) :=
  ⟨by decide, by decide,
    (c6_dot_unstuffing okHandler false [46, 46, 120, 13, 10]).2.1 (by decide) (by decide),
    (c6_dot_unstuffing okHandler false [46, 46, 120, 13, 10]).1⟩

/-- C7: the first handler.data error poisons the Data phase (has_error=true)
and is answered with TRANSACTION_FAILED; once poisoned, further non-terminator
lines produce EMPTY_RESPONSE without invoking handler.data; DataEnd with
has_error=false invokes handler.data_end and uses its response; DataEnd with
has_error=true produces EMPTY_RESPONSE, runs no callback, and still moves to
Hello. -/
theorem c7_data_error_reported_once (h : Handler) (fsm : StateMachine) (d : String)
    (line line2 : List Nat) (e : String)
    (hne : line ≠ [46, 13, 10]) (hne2 : line2 ≠ [46, 13, 10])
    (herr : h.data (if [46].isPrefixOf line then line.drop 1 else line) = Except.error e) :
    (DataSt.process_line false h line =
      (Sum.inr TRANSACTION_FAILED, true,
        [HCall.data (if [46].isPrefixOf line then line.drop 1 else line)])) ∧
    (DataSt.process_line true h line2 = (Sum.inr EMPTY_RESPONSE, true, [])) ∧
    ((DataSt.handle fsm h d false Cmd.DataEnd).1 = h.data_end ∧
      (DataSt.handle fsm h d false Cmd.DataEnd).2.2.2 = [HCall.data_end]) ∧
    (DataSt.handle fsm h d true Cmd.DataEnd =
      (EMPTY_RESPONSE, some (SmtpSt.Hello d), fsm, [])) := by
  refine ⟨?_, ?_, ⟨?_, rfl⟩, ?_⟩
  · simp only [DataSt.process_line, if_neg hne, if_neg (by simp : ¬(false = true))]
    rw [herr]
  · simp [DataSt.process_line, hne2]
  · exact transform_state_fst _ _ _
  · simp [DataSt.handle, transform_state, EMPTY_RESPONSE]

/-- C7 witness: with a handler whose data callback always fails, the line
`x\r\n` poisons the phase, the line `y\r\n` is then silently dropped, and both
DataEnd behaviours hold. -/
theorem c7_witness :
    ([120, 13, 10] ≠ [46, 13, 10]) ∧
    (failDataHandler.data
        (if [46].isPrefixOf [120, 13, 10] then ([120, 13, 10] : List Nat).drop 1
          else [120, 13, 10]) = Except.error "disk full") ∧
    (DataSt.process_line false failDataHandler [120, 13, 10] =
      (Sum.inr TRANSACTION_FAILED, true, [HCall.data [120, 13, 10]])) ∧
    (DataSt.process_line true failDataHandler [121, 13, 10] =
      (Sum.inr EMPTY_RESPONSE, true, [])) ∧
    DataSt.handle (StateMachine.new 0 [] false false) failDataHandler "client" true
        Cmd.DataEnd =
      (EMPTY_RESPONSE, some (SmtpSt.Hello "client"), StateMachine.new 0 [] false false, []) :=
  ⟨by decide, by rfl,
    (c7_data_error_reported_once failDataHandler (StateMachine.new 0 [] false false) "client"
      [120, 13, 10] [121, 13, 10] "disk full" (by decide) (by decide) (by rfl)).1,
    (c7_data_error_reported_once failDataHandler (StateMachine.new 0 [] false false) "client"
      [120, 13, 10] [121, 13, 10] "disk full" (by decide) (by decide) (by rfl)).2.1,
    (c7_data_error_reported_once failDataHandler (StateMachine.new 0 [] false false) "client"
      [120, 13, 10] [121, 13, 10] "disk full" (by decide) (by decide) (by rfl)).2.2.2⟩

/-- C10: in HelloAuth, StartTls is answered with START_TLS and moves to Idle
for every TlsState (including Unavailable and Active); in Hello, StartTls is
accepted only when TlsState=Inactive, otherwise it is rejected with 503 and
the phase stays Hello. -/
theorem c10_starttls_guards (fsm : StateMachine) (h : Handler) (d : String) :
    (HelloAuth.handle fsm h d Cmd.StartTls = (START_TLS, some SmtpSt.Idle, fsm, [])) ∧
    (fsm.tls = TlsState.Inactive →
      Hello.handle fsm h d Cmd.StartTls = (START_TLS, some SmtpSt.Idle, fsm, [])) ∧
    (fsm.tls ≠ TlsState.Inactive →
      Hello.handle fsm h d Cmd.StartTls =
        (BAD_SEQUENCE_COMMANDS, some (SmtpSt.Hello d), fsm, [])) := by
  refine ⟨rfl, ?_, ?_⟩
  · intro ht
    simp [Hello.handle, ht]
  · intro ht
    simp [Hello.handle, ht, default_handler, unhandled]

/-- C10 witness: the Hello-side guard applied with TLS inactive (accepted) and
with TLS unavailable (rejected). -/
theorem c10_witness :
    ((StateMachine.new 0 [] true false).tls = TlsState.Inactive ∧
      Hello.handle (StateMachine.new 0 [] true false) okHandler "d" Cmd.StartTls =
        (START_TLS, some SmtpSt.Idle, StateMachine.new 0 [] true false, [])) ∧
    ((StateMachine.new 0 [] false false).tls ≠ TlsState.Inactive ∧
      Hello.handle (StateMachine.new 0 [] false false) okHandler "d" Cmd.StartTls =
        (BAD_SEQUENCE_COMMANDS, some (SmtpSt.Hello "d"),
          StateMachine.new 0 [] false false, [])) :=
  ⟨⟨by decide, (c10_starttls_guards (StateMachine.new 0 [] true false) okHandler "d").2.1
      (by decide)⟩,
    ⟨by decide, (c10_starttls_guards (StateMachine.new 0 [] false false) okHandler "d").2.2
      (by decide)⟩⟩

end Mailin

namespace MimeEvent

/-- C8 counterexample: with zero data() calls the event sequence is exactly
[End] — it ends with End but does not begin with Start, contrary to the
claim's "including the case of zero data() calls". -/
theorem c8_counterexample :
    EventParser.runLines [] = [Event.End] ∧
    (EventParser.runLines []).head? ≠ some Event.Start := by
  decide

/-- C8 (amended): whenever at least one data() call is made, the emitted event
sequence begins with Start; the sequence always ends with End. -/
theorem c8_start_end (l : List Nat) (ls : List (List Nat)) :
    (EventParser.runLines (l :: ls)).head? = some Event.Start ∧
    (EventParser.runLines (l :: ls)).getLast? = some Event.End := by
  constructor
  · simp [EventParser.runLines, EventParser.dataList, EventParser.data,
      EventParser.handle_write, EventParser.new]
  · simp [EventParser.runLines, EventParser.finish]

/-- C9: in the Body state with a stored boundary, a line is a close boundary
exactly when it starts with the boundary, is longer than boundary.len()+2, and
ends with `--\r\n`; on such a line the parser emits PartEnd{offset} then
MultipartEnd, transitions to Header, advances the offset, and pops the
multipart stack, restoring the previous frame's content_type and boundary when
one exists. -/
theorem c9_close_boundary (p : EventParser) (b buf : List Nat) (len : Nat)
    (hst : p.state = MState.Body) (hb : p.boundary = some b) :
    (p.is_close_boundary buf = true ↔
      (b <+: buf ∧ b.length + 2 < buf.length ∧ [45, 45, 13, 10] <:+ buf)) ∧
    (p.is_close_boundary buf = true →
      (p.handle_line buf len).2.1 = [Event.PartEnd p.offset, Event.MultipartEnd] ∧
      (p.handle_line buf len).2.2 = none ∧
      (p.handle_line buf len).1.state = MState.Header ∧
      (p.handle_line buf len).1.offset = p.offset + len ∧
      (match p.multipart_stack with
        | [] =>
          (p.handle_line buf len).1.content_type = p.content_type ∧
          (p.handle_line buf len).1.boundary = p.boundary ∧
          (p.handle_line buf len).1.multipart_stack = []
        | f :: rest =>
          (p.handle_line buf len).1.content_type = Mime.Multipart f.content_type ∧
          (p.handle_line buf len).1.boundary = some f.boundary ∧
          (p.handle_line buf len).1.multipart_stack = rest)) := by
  obtain ⟨st0, off, ct, bd, stk, hbuf⟩ := p
  simp only at hst hb
  subst hst
  subst hb
  constructor
  · simp [EventParser.is_close_boundary, List.isPrefixOf_iff_prefix,
      List.isSuffixOf_iff_suffix, and_assoc]
  · intro hcl
    simp only [EventParser.handle_line, hcl, if_pos rfl]
    cases stk <;> simp

/-- C9 witness: the close-boundary line `--X--\r\n` against the stored
boundary `--X` in Body state with one stacked frame: the events, the Header
transition, the offset advance, and the restored frame. -/
theorem c9_witness :
    bodyParserExample.is_close_boundary [45, 45, 88, 45, 45, 13, 10] = true ∧
    (bodyParserExample.handle_line [45, 45, 88, 45, 45, 13, 10] 7).2.1 =
      [Event.PartEnd 5, Event.MultipartEnd] ∧
    (bodyParserExample.handle_line [45, 45, 88, 45, 45, 13, 10] 7).1.state =
      MState.Header ∧
    (bodyParserExample.handle_line [45, 45, 88, 45, 45, 13, 10] 7).1.boundary =
      some [45, 45, 89] ∧
    (bodyParserExample.handle_line [45, 45, 88, 45, 45, 13, 10] 7).1.content_type =
      Mime.Multipart Multipart.Alternative :=
  ⟨by decide,
    ((c9_close_boundary bodyParserExample [45, 45, 88] [45, 45, 88, 45, 45, 13, 10] 7 rfl
        rfl).2 (by decide)).1,
    ((c9_close_boundary bodyParserExample [45, 45, 88] [45, 45, 88, 45, 45, 13, 10] 7 rfl
        rfl).2 (by decide)).2.2.1,
    ((c9_close_boundary bodyParserExample [45, 45, 88] [45, 45, 88, 45, 45, 13, 10] 7 rfl
        rfl).2 (by decide)).2.2.2.2.2.1,
    ((c9_close_boundary bodyParserExample [45, 45, 88] [45, 45, 88, 45, 45, 13, 10] 7 rfl
        rfl).2 (by decide)).2.2.2.2.1⟩

end MimeEvent

namespace Mailin

/-- C4 counterexample: when handler.auth_plain answers 250 — a code other than
235 that is not an error — the phase does NOT stay HelloAuth as the claim
states: the machine moves to Hello while auth_state stays RequiresAuth. -/
theorem c4_counterexample :
    (StateMachine.new 0 [AuthMechanism.Plain] true true).allow_auth_plain = true ∧
    (weirdAuthHandler.auth_plain "" "u" "p").code ≠ 235 ∧
    (HelloAuth.handle (StateMachine.new 0 [AuthMechanism.Plain] true true) weirdAuthHandler
        "d" (Cmd.AuthPlain "" "u" "p")).2.1 = some (SmtpSt.Hello "d") ∧
    (HelloAuth.handle (StateMachine.new 0 [AuthMechanism.Plain] true true) weirdAuthHandler
        "d" (Cmd.AuthPlain "" "u" "p")).2.2.1.auth_state = AuthState.RequiresAuth ∧
    (some (SmtpSt.Hello "d") ≠ some (SmtpSt.HelloAuth "d")) := by
  decide

/-- C4 (amended): for every AuthPlain accepted in HelloAuth,
handler.auth_plain is invoked; provided the returned response is well-formed
(is_error iff code ≥ 400) and its action is not Close: a 235 reply moves the
phase to Hello{domain} with AuthState=Authenticated; an error reply keeps the
phase at HelloAuth with AuthState=RequiresAuth; and any non-error reply (235
or not) moves the phase to Hello{domain}. -/
theorem c4_auth_plain_outcome (fsm : StateMachine) (h : Handler) (d a b c_ : String)
    (hallow : fsm.allow_auth_plain = true)
    (hwf : (h.auth_plain a b c_).is_error = decide (400 ≤ (h.auth_plain a b c_).code))
    (hact : (h.auth_plain a b c_).action ≠ Action.Close) :
    ((HelloAuth.handle fsm h d (Cmd.AuthPlain a b c_)).2.2.2 =
      [HCall.auth_plain a b c_]) ∧
    ((h.auth_plain a b c_).code = 235 →
      (HelloAuth.handle fsm h d (Cmd.AuthPlain a b c_)).2.1 = some (SmtpSt.Hello d) ∧
      (HelloAuth.handle fsm h d (Cmd.AuthPlain a b c_)).2.2.1.auth_state =
        AuthState.Authenticated) ∧
    ((h.auth_plain a b c_).is_error = true →
      (HelloAuth.handle fsm h d (Cmd.AuthPlain a b c_)).2.1 =
        some (SmtpSt.HelloAuth d) ∧
      (HelloAuth.handle fsm h d (Cmd.AuthPlain a b c_)).2.2.1.auth_state =
        AuthState.RequiresAuth) ∧
    ((h.auth_plain a b c_).is_error = false →
      (HelloAuth.handle fsm h d (Cmd.AuthPlain a b c_)).2.1 = some (SmtpSt.Hello d)) := by
  simp only [HelloAuth.handle, hallow, if_pos rfl, authenticate_plain]
  refine ⟨rfl, ?_, ?_, ?_⟩
  · intro h235
    have herr : (h.auth_plain a b c_).is_error = false := by
      rw [hwf, h235]
      decide
    constructor
    · show (transform_state (SmtpSt.HelloAuth d) (h.auth_plain a b c_)
        fun _ => SmtpSt.Hello d).2 = some (SmtpSt.Hello d)
      simp [transform_state, hact, herr]
    · simp [h235]
  · intro herr
    constructor
    · show (transform_state (SmtpSt.HelloAuth d) (h.auth_plain a b c_)
        fun _ => SmtpSt.Hello d).2 = some (SmtpSt.HelloAuth d)
      exact transform_state_err_keep _ _ _ herr hact
    · have h235 : ¬(h.auth_plain a b c_).code = 235 := by
        intro hc
        rw [hwf, hc] at herr
        simp at herr
      simp [h235]
  · intro herr
    show (transform_state (SmtpSt.HelloAuth d) (h.auth_plain a b c_)
      fun _ => SmtpSt.Hello d).2 = some (SmtpSt.Hello d)
    simp [transform_state, hact, herr]

/-- C4 witness: the amended theorem applied with the all-accepting handler
(235) at a machine that allows AUTH PLAIN. -/
theorem c4_witness :
    (StateMachine.new 0 [AuthMechanism.Plain] true true).allow_auth_plain = true ∧
    (okHandler.auth_plain "" "alice" "secret").code = 235 ∧
    (HelloAuth.handle (StateMachine.new 0 [AuthMechanism.Plain] true true) okHandler "d"
        (Cmd.AuthPlain "" "alice" "secret")).2.2.2 =
      [HCall.auth_plain "" "alice" "secret"] ∧
    (HelloAuth.handle (StateMachine.new 0 [AuthMechanism.Plain] true true) okHandler "d"
        (Cmd.AuthPlain "" "alice" "secret")).2.1 = some (SmtpSt.Hello "d") ∧
    (HelloAuth.handle (StateMachine.new 0 [AuthMechanism.Plain] true true) okHandler "d"
        (Cmd.AuthPlain "" "alice" "secret")).2.2.1.auth_state = AuthState.Authenticated :=
  ⟨by decide, by decide,
    (c4_auth_plain_outcome (StateMachine.new 0 [AuthMechanism.Plain] true true) okHandler
      "d" "" "alice" "secret" (by decide) (by decide) (by decide)).1,
    ((c4_auth_plain_outcome (StateMachine.new 0 [AuthMechanism.Plain] true true) okHandler
      "d" "" "alice" "secret" (by decide) (by decide) (by decide)).2.1 (by decide)).1,
    ((c4_auth_plain_outcome (StateMachine.new 0 [AuthMechanism.Plain] true true) okHandler
      "d" "" "alice" "secret" (by decide) (by decide) (by decide)).2.1 (by decide)).2⟩

end Mailin

namespace Mailin

theorem handle_err_keep (fsm : StateMachine) (h : Handler) (st : SmtpSt) (cmd : Cmd)
    (hna : st.id ≠ SmtpState.Auth)
    (he : (st.handle fsm h cmd).1.is_error = true)
    (hc : (st.handle fsm h cmd).1.action ≠ Action.Close) :
    (st.handle fsm h cmd).2.1 = some st := by
  cases st with
  | Auth d mech u => exact absurd rfl hna
  | Idle =>
    cases cmd
    case StartedTls => simp [SmtpSt.handle, Idle.handle, EMPTY_RESPONSE] at he
    case Rset => simp [SmtpSt.handle, Idle.handle, OK] at he
    all_goals exact default_handler_keep _ _ h _ he hc
  | Hello d =>
    cases cmd
    case Mail rp i8 =>
      have h1 : (SmtpSt.handle (SmtpSt.Hello d) fsm h (Cmd.Mail rp i8)).1 =
          h.mail fsm.ip d rp := transform_state_fst _ _ _
      rw [h1] at he hc
      exact transform_state_err_keep _ _ _ he hc
    case StartTls =>
      by_cases ht : fsm.tls = TlsState.Inactive
      · simp [SmtpSt.handle, Hello.handle, ht, START_TLS] at he
      · simp only [SmtpSt.handle, Hello.handle, if_neg ht] at he hc ⊢
        exact default_handler_keep _ _ h _ he hc
    case Vrfy => simp [SmtpSt.handle, Hello.handle, VERIFY_RESPONSE] at he
    case Rset =>
      have h1 : (SmtpSt.handle (SmtpSt.Hello d) fsm h Cmd.Rset).1 = OK :=
        handle_rset_fst fsm d
      rw [h1] at he
      simp [OK] at he
    all_goals exact default_handler_keep _ _ h _ he hc
  | HelloAuth d =>
    cases cmd
    case StartTls => simp [SmtpSt.handle, HelloAuth.handle, START_TLS] at he
    case AuthPlain a b c_ =>
      by_cases hap : fsm.allow_auth_plain = true
      · simp only [SmtpSt.handle, HelloAuth.handle, if_pos hap, authenticate_plain] at he hc ⊢
        rw [transform_state_fst] at he hc
        exact transform_state_err_keep _ _ _ he hc
      · simp only [SmtpSt.handle, HelloAuth.handle, if_neg hap] at he hc ⊢
        exact default_handler_keep _ _ h _ he hc
    case AuthPlainEmpty =>
      by_cases hap : fsm.allow_auth_plain = true
      · simp [SmtpSt.handle, HelloAuth.handle, if_pos hap, EMPTY_AUTH_CHALLENGE] at he
      · simp only [SmtpSt.handle, HelloAuth.handle, if_neg hap] at he hc ⊢
        exact default_handler_keep _ _ h _ he hc
    case AuthLogin u =>
      by_cases hal : fsm.allow_auth_login = true
      · simp [SmtpSt.handle, HelloAuth.handle, if_pos hal, PASSWORD_AUTH_CHALLENGE] at he
      · simp only [SmtpSt.handle, HelloAuth.handle, if_neg hal] at he hc ⊢
        exact default_handler_keep _ _ h _ he hc
    case AuthLoginEmpty =>
      by_cases hal : fsm.allow_auth_login = true
      · simp [SmtpSt.handle, HelloAuth.handle, if_pos hal, USERNAME_AUTH_CHALLENGE] at he
      · simp only [SmtpSt.handle, HelloAuth.handle, if_neg hal] at he hc ⊢
        exact default_handler_keep _ _ h _ he hc
    case Rset =>
      have h1 : (SmtpSt.handle (SmtpSt.HelloAuth d) fsm h Cmd.Rset).1 = OK :=
        handle_rset_fst fsm d
      rw [h1] at he
      simp [OK] at he
    all_goals exact default_handler_keep _ _ h _ he hc
  | Mail d rp i8 =>
    cases cmd
    case Rcpt fp =>
      have h1 : (SmtpSt.handle (SmtpSt.Mail d rp i8) fsm h (Cmd.Rcpt fp)).1 =
          h.rcpt fp := transform_state_fst _ _ _
      rw [h1] at he hc
      exact transform_state_err_keep _ _ _ he hc
    case Rset =>
      have h1 : (SmtpSt.handle (SmtpSt.Mail d rp i8) fsm h Cmd.Rset).1 = OK :=
        handle_rset_fst fsm d
      rw [h1] at he
      simp [OK] at he
    all_goals exact default_handler_keep _ _ h _ he hc
  | Rcpt d rp i8 fps =>
    cases cmd
    case Data =>
      have h1 : (SmtpSt.handle (SmtpSt.Rcpt d rp i8 fps) fsm h Cmd.Data).1 =
          (if (h.data_start d rp i8 fps).is_error then h.data_start d rp i8 fps
            else START_DATA) := transform_state_fst _ _ _
      rw [h1] at he hc
      exact transform_state_err_keep _ _ _ he hc
    case Rcpt fp =>
      have h1 : (SmtpSt.handle (SmtpSt.Rcpt d rp i8 fps) fsm h (Cmd.Rcpt fp)).1 =
          h.rcpt fp := transform_state_fst _ _ _
      rw [h1] at he hc
      exact transform_state_err_keep _ _ _ he hc
    case Rset =>
      have h1 : (SmtpSt.handle (SmtpSt.Rcpt d rp i8 fps) fsm h Cmd.Rset).1 = OK :=
        handle_rset_fst fsm d
      rw [h1] at he
      simp [OK] at he
    all_goals exact default_handler_keep _ _ h _ he hc
  | Data d ef =>
    cases cmd
    case DataEnd =>
      have h1 : (SmtpSt.handle (SmtpSt.Data d ef) fsm h Cmd.DataEnd).1 =
          (if ef then EMPTY_RESPONSE else h.data_end) := transform_state_fst _ _ _
      rw [h1] at he hc
      exact transform_state_err_keep _ _ _ he hc
    all_goals rfl

theorem handle_close_none (fsm : StateMachine) (h : Handler) (st : SmtpSt) (cmd : Cmd)
    (hna : st.id ≠ SmtpState.Auth)
    (hc : (st.handle fsm h cmd).1.action = Action.Close) :
    (st.handle fsm h cmd).2.1 = none := by
  cases st with
  | Auth d mech u => exact absurd rfl hna
  | Idle =>
    cases cmd
    case StartedTls => simp [SmtpSt.handle, Idle.handle, EMPTY_RESPONSE] at hc
    case Rset => simp [SmtpSt.handle, Idle.handle, OK] at hc
    all_goals exact default_handler_close _ _ h _ hc
  | Hello d =>
    cases cmd
    case Mail rp i8 =>
      have h1 : (SmtpSt.handle (SmtpSt.Hello d) fsm h (Cmd.Mail rp i8)).1 =
          h.mail fsm.ip d rp := transform_state_fst _ _ _
      rw [h1] at hc
      exact transform_state_close_none _ _ _ hc
    case StartTls =>
      by_cases ht : fsm.tls = TlsState.Inactive
      · simp [SmtpSt.handle, Hello.handle, ht, START_TLS] at hc
      · simp only [SmtpSt.handle, Hello.handle, if_neg ht] at hc ⊢
        exact default_handler_close _ _ h _ hc
    case Vrfy => simp [SmtpSt.handle, Hello.handle, VERIFY_RESPONSE] at hc
    case Rset =>
      have h1 : (SmtpSt.handle (SmtpSt.Hello d) fsm h Cmd.Rset).1 = OK :=
        handle_rset_fst fsm d
      rw [h1] at hc
      simp [OK] at hc
    all_goals exact default_handler_close _ _ h _ hc
  | HelloAuth d =>
    cases cmd
    case StartTls => simp [SmtpSt.handle, HelloAuth.handle, START_TLS] at hc
    case AuthPlain a b c_ =>
      by_cases hap : fsm.allow_auth_plain = true
      · simp only [SmtpSt.handle, HelloAuth.handle, if_pos hap, authenticate_plain] at hc ⊢
        rw [transform_state_fst] at hc
        exact transform_state_close_none _ _ _ hc
      · simp only [SmtpSt.handle, HelloAuth.handle, if_neg hap] at hc ⊢
        exact default_handler_close _ _ h _ hc
    case AuthPlainEmpty =>
      by_cases hap : fsm.allow_auth_plain = true
      · simp [SmtpSt.handle, HelloAuth.handle, if_pos hap, EMPTY_AUTH_CHALLENGE] at hc
      · simp only [SmtpSt.handle, HelloAuth.handle, if_neg hap] at hc ⊢
        exact default_handler_close _ _ h _ hc
    case AuthLogin u =>
      by_cases hal : fsm.allow_auth_login = true
      · simp [SmtpSt.handle, HelloAuth.handle, if_pos hal, PASSWORD_AUTH_CHALLENGE] at hc
      · simp only [SmtpSt.handle, HelloAuth.handle, if_neg hal] at hc ⊢
        exact default_handler_close _ _ h _ hc
    case AuthLoginEmpty =>
      by_cases hal : fsm.allow_auth_login = true
      · simp [SmtpSt.handle, HelloAuth.handle, if_pos hal, USERNAME_AUTH_CHALLENGE] at hc
      · simp only [SmtpSt.handle, HelloAuth.handle, if_neg hal] at hc ⊢
        exact default_handler_close _ _ h _ hc
    case Rset =>
      have h1 : (SmtpSt.handle (SmtpSt.HelloAuth d) fsm h Cmd.Rset).1 = OK :=
        handle_rset_fst fsm d
      rw [h1] at hc
      simp [OK] at hc
    all_goals exact default_handler_close _ _ h _ hc
  | Mail d rp i8 =>
    cases cmd
    case Rcpt fp =>
      have h1 : (SmtpSt.handle (SmtpSt.Mail d rp i8) fsm h (Cmd.Rcpt fp)).1 =
          h.rcpt fp := transform_state_fst _ _ _
      rw [h1] at hc
      exact transform_state_close_none _ _ _ hc
    case Rset =>
      have h1 : (SmtpSt.handle (SmtpSt.Mail d rp i8) fsm h Cmd.Rset).1 = OK :=
        handle_rset_fst fsm d
      rw [h1] at hc
      simp [OK] at hc
    all_goals exact default_handler_close _ _ h _ hc
  | Rcpt d rp i8 fps =>
    cases cmd
    case Data =>
      have h1 : (SmtpSt.handle (SmtpSt.Rcpt d rp i8 fps) fsm h Cmd.Data).1 =
          (if (h.data_start d rp i8 fps).is_error then h.data_start d rp i8 fps
            else START_DATA) := transform_state_fst _ _ _
      rw [h1] at hc
      exact transform_state_close_none _ _ _ hc
    case Rcpt fp =>
      have h1 : (SmtpSt.handle (SmtpSt.Rcpt d rp i8 fps) fsm h (Cmd.Rcpt fp)).1 =
          h.rcpt fp := transform_state_fst _ _ _
      rw [h1] at hc
      exact transform_state_close_none _ _ _ hc
    case Rset =>
      have h1 : (SmtpSt.handle (SmtpSt.Rcpt d rp i8 fps) fsm h Cmd.Rset).1 = OK :=
        handle_rset_fst fsm d
      rw [h1] at hc
      simp [OK] at hc
    all_goals exact default_handler_close _ _ h _ hc
  | Data d ef =>
    cases cmd
    case DataEnd =>
      have h1 : (SmtpSt.handle (SmtpSt.Data d ef) fsm h Cmd.DataEnd).1 =
          (if ef then EMPTY_RESPONSE else h.data_end) := transform_state_fst _ _ _
      rw [h1] at hc
      exact transform_state_close_none _ _ _ hc
    all_goals simp [SmtpSt.handle, DataSt.handle, unhandled, BAD_SEQUENCE_COMMANDS] at hc

end Mailin

namespace Mailin

theorem runCmds_none (h : Handler) (cmds : List Cmd) :
    ∀ fsm : StateMachine, fsm.smtp = none → (fsm.runCmds h cmds).smtp = none := by
  induction cmds with
  | nil => exact fun fsm hn => hn
  | cons c cs ih =>
    intro fsm hn
    simp only [StateMachine.runCmds]
    apply ih
    simp [StateMachine.command, hn]

/-- C1 counterexample: in the Auth phase, a failed AUTH PLAIN exchange (the
handler answers 535) produces an error response, yet the phase changes from
Auth to HelloAuth — contrary to the claim that an error response never changes
the phase, "in particular in the Auth phase". -/
theorem c1_counterexample :
    ((SmtpSt.Auth "d" AuthMechanism.Plain none).handle
        (StateMachine.new 0 [AuthMechanism.Plain] true true) rejectAuthHandler
        (Cmd.AuthResponse [])).1.is_error = true ∧
    ((SmtpSt.Auth "d" AuthMechanism.Plain none).handle
        (StateMachine.new 0 [AuthMechanism.Plain] true true) rejectAuthHandler
        (Cmd.AuthResponse [])).2.1 = some (SmtpSt.HelloAuth "d") ∧
    (SmtpSt.Auth "d" AuthMechanism.Plain none).id = SmtpState.Auth ∧
    (SmtpSt.HelloAuth "d").id ≠ SmtpState.Auth := by
  decide

/-- C1 (amended): outside the Auth phase, an error response whose action is
not Close leaves the state unchanged; in the Auth phase, an error response to
an AuthResponse command (a failed SASL exchange) moves the phase to HelloAuth,
while any command other than an AuthResponse leaves the Auth state
unchanged. -/
theorem c1_error_keeps_phase (fsm : StateMachine) (h : Handler) (st : SmtpSt) (cmd : Cmd) :
    (st.id ≠ SmtpState.Auth →
      (st.handle fsm h cmd).1.is_error = true →
      (st.handle fsm h cmd).1.action ≠ Action.Close →
      (st.handle fsm h cmd).2.1 = some st) ∧
    (∀ d mech u resp, st = SmtpSt.Auth d mech u → cmd = Cmd.AuthResponse resp →
      (st.handle fsm h cmd).1.is_error = true →
      (st.handle fsm h cmd).2.1 = some (SmtpSt.HelloAuth d)) ∧
    (∀ d mech u, st = SmtpSt.Auth d mech u → (∀ resp, cmd ≠ Cmd.AuthResponse resp) →
      (st.handle fsm h cmd).2.1 = some st) := by
  refine ⟨fun hna he hc => handle_err_keep fsm h st cmd hna he hc, ?_, ?_⟩
  · rintro d mech u resp rfl rfl he
    cases mech with
    | Plain =>
      by_cases hr : (h.auth_plain (decode_sasl_plain resp).authorization_id
          (decode_sasl_plain resp).authentication_id
          (decode_sasl_plain resp).password).is_error = true
      · simp [SmtpSt.handle, Auth.handle, authenticate_plain, hr]
      · rw [Bool.not_eq_true] at hr
        simp [SmtpSt.handle, Auth.handle, authenticate_plain, hr] at he
    | Login =>
      cases u with
      | some uu =>
        by_cases hr : (h.auth_login uu (decode_sasl_login resp)).is_error = true
        · simp [SmtpSt.handle, Auth.handle, authenticate_login, hr]
        · rw [Bool.not_eq_true] at hr
          simp [SmtpSt.handle, Auth.handle, authenticate_login, hr] at he
      | none => simp [SmtpSt.handle, Auth.handle, PASSWORD_AUTH_CHALLENGE] at he
  · rintro d mech u rfl hnr
    cases cmd
    case AuthResponse resp => exact absurd rfl (hnr resp)
    all_goals rfl

/-- C1 witness: part one of the amended theorem applied in Hello with a
handler that rejects MAIL with a non-Close 550: the phase stays Hello. -/
theorem c1_witness :
    ((SmtpSt.Hello "d").id ≠ SmtpState.Auth) ∧
    ((SmtpSt.Hello "d").handle (StateMachine.new 0 [] false false) rejectMailHandler
        (Cmd.Mail "r" false)).1.is_error = true ∧
    ((SmtpSt.Hello "d").handle (StateMachine.new 0 [] false false) rejectMailHandler
        (Cmd.Mail "r" false)).1.action ≠ Action.Close ∧
    ((SmtpSt.Hello "d").handle (StateMachine.new 0 [] false false) rejectMailHandler
        (Cmd.Mail "r" false)).2.1 = some (SmtpSt.Hello "d") :=
  ⟨by decide, by decide, by decide,
    (c1_error_keeps_phase (StateMachine.new 0 [] false false) rejectMailHandler
      (SmtpSt.Hello "d") (Cmd.Mail "r" false)).1 (by decide) (by decide) (by decide)⟩

/-- C5 counterexample: in the Auth phase, a Close-actioned 421 from
handler.auth_plain does NOT terminate the session — the machine moves to
HelloAuth and the next command is still processed (answered OK, not
INVALID_STATE) — contrary to the claim that a Close response always terminates
the session. -/
theorem c5_counterexample :
    (({ StateMachine.new 0 [AuthMechanism.Plain] true true with
          smtp := some (SmtpSt.Auth "d" AuthMechanism.Plain none) }.command
        closeAuthHandler (Cmd.AuthResponse [])).1.action = Action.Close) ∧
    (({ StateMachine.new 0 [AuthMechanism.Plain] true true with
          smtp := some (SmtpSt.Auth "d" AuthMechanism.Plain none) }.command
        closeAuthHandler (Cmd.AuthResponse [])).2.1.smtp ≠ none) ∧
    ((({ StateMachine.new 0 [AuthMechanism.Plain] true true with
          smtp := some (SmtpSt.Auth "d" AuthMechanism.Plain none) }.command
        closeAuthHandler (Cmd.AuthResponse [])).2.1.command closeAuthHandler
        Cmd.Noop).1 = OK) ∧
    OK ≠ INVALID_STATE := by
  decide

/-- C5 (amended): outside the Auth phase, a Close-actioned response terminates
the session (successor state None); once terminated, every call to command()
yields INVALID_STATE, keeps the machine terminated, and runs no handler
callback — so no sequence of further commands is ever accepted.  In the Auth
phase a Close-actioned handler response does not terminate the session. -/
theorem c5_close_terminates (fsm : StateMachine) (h : Handler) (st : SmtpSt) (cmd : Cmd)
    (cmds : List Cmd) :
    (st.id ≠ SmtpState.Auth → (st.handle fsm h cmd).1.action = Action.Close →
      (st.handle fsm h cmd).2.1 = none) ∧
    (fsm.smtp = none →
      (fsm.command h cmd).1 = INVALID_STATE ∧
      (fsm.command h cmd).2.1.smtp = none ∧
      (fsm.command h cmd).2.2 = []) ∧
    (fsm.smtp = none → (fsm.runCmds h cmds).smtp = none) := by
  refine ⟨fun hna hc => handle_close_none fsm h st cmd hna hc, ?_, ?_⟩
  · intro hn
    simp [StateMachine.command, hn]
  · exact fun hn => runCmds_none h cmds fsm hn

/-- C5 witness: Quit in Hello produces the Close-actioned GOODBYE and
terminates; a terminated machine answers INVALID_STATE with no callbacks and
stays terminated across a further command sequence. -/
theorem c5_witness :
    ((SmtpSt.Hello "d").id ≠ SmtpState.Auth) ∧
    ((SmtpSt.Hello "d").handle (StateMachine.new 0 [] false false) okHandler
        Cmd.Quit).1.action = Action.Close ∧
    ((SmtpSt.Hello "d").handle (StateMachine.new 0 [] false false) okHandler
        Cmd.Quit).2.1 = none ∧
    (({ StateMachine.new 0 [] false false with smtp := none }.command okHandler
        Cmd.Noop).1 = INVALID_STATE ∧
      ({ StateMachine.new 0 [] false false with smtp := none }.command okHandler
        Cmd.Noop).2.1.smtp = none ∧
      ({ StateMachine.new 0 [] false false with smtp := none }.command okHandler
        Cmd.Noop).2.2 = []) ∧
    ({ StateMachine.new 0 [] false false with smtp := none }.runCmds okHandler
        [Cmd.Noop, Cmd.Helo "x", Cmd.Quit]).smtp = none :=
  ⟨by decide, by decide,
    (c5_close_terminates (StateMachine.new 0 [] false false) okHandler (SmtpSt.Hello "d")
      Cmd.Quit []).1 (by decide) (by decide),
    (c5_close_terminates { StateMachine.new 0 [] false false with smtp := none } okHandler
      SmtpSt.Idle Cmd.Noop [Cmd.Noop, Cmd.Helo "x", Cmd.Quit]).2.1 (by rfl),
    (c5_close_terminates { StateMachine.new 0 [] false false with smtp := none } okHandler
      SmtpSt.Idle Cmd.Noop [Cmd.Noop, Cmd.Helo "x", Cmd.Quit]).2.2 (by rfl)⟩

end Mailin
